import Mathlib

/-!
Verification of the Task Registry Service (src/app/main.py): the Task
record, the in-memory task store (a Python dict keyed by integer id), and
the four per-task request handlers (GET /tasks/id, POST /tasks,
PUT /tasks/id, DELETE /tasks/id), together with the invariants and
algebraic properties claimed by the specification.
-/

namespace TaskApi

/-- Task model for request/response bodies (class Task in src/app/main.py):
integer `id`, string `title`, boolean `completed`. -/
structure Task where
  id : Int
  title : String
  completed : Bool
deriving DecidableEq, Repr

/-- A schema-valid request body for POST/PUT: `completed` is optional and
pydantic fills in the declared default `False` when it is omitted. -/
structure TaskBody where
  id : Int
  title : String
  completed : Option Bool
deriving DecidableEq, Repr

/-- Pydantic validation of a schema-valid body into a Task value:
an omitted `completed` defaults to false (`completed: bool = False`). -/
def TaskBody.parse (b : TaskBody) : Task :=
  { id := b.id, title := b.title, completed := b.completed.getD false }

/-- The module-level store `tasks = ` empty dict in src/app/main.py:
modelled as an association list from integer id to Task, mutated with
Python dict semantics by the handlers. -/
abbrev Store := List (Int × Task)

/-- Dict key lookup, as in `tasks[task_id]` and the `in` test. -/
def Store.lookup : Store → Int → Option Task
  | [], _ => none
  | (k, v) :: rest, k0 => if k = k0 then some v else Store.lookup rest k0

/-- Python `task_id in tasks` membership test on the dict keys. -/
def Store.contains (s : Store) (k : Int) : Bool :=
  (s.lookup k).isSome

/-- Dict assignment `tasks[k] = v`: replaces the value in place when the
key is already present, appends a new entry otherwise. -/
def Store.set : Store → Int → Task → Store
  | [], k, v => [(k, v)]
  | (k0, v0) :: rest, k, v =>
      if k0 = k then (k, v) :: rest else (k0, v0) :: Store.set rest k v

/-- Dict deletion `del tasks[k]`: removes the entry stored at key `k`. -/
def Store.erase : Store → Int → Store
  | [], _ => []
  | (k0, v0) :: rest, k =>
      if k0 = k then Store.erase rest k else (k0, v0) :: Store.erase rest k

/-- The list of keys of the store. -/
def Store.keys (s : Store) : List Int := s.map Prod.fst

/-- HTTP response of a per-task handler: 200 with a Task body, 200 with a
message object, or an HTTPException carrying a status code and a detail
string (FastAPI renders it as a JSON object with a detail field). -/
inductive Response where
  | ok (t : Task)
  | msg (message : String)
  | error (status : Nat) (detail : String)
deriving DecidableEq, Repr

/-- Handler for GET /tasks/(task_id) (get_task in src/app/main.py):
404 "Task not found" when the id is absent, otherwise 200 with the stored
Task. The handler never mutates the store. -/
def get_task (s : Store) (task_id : Int) : Response × Store :=
  match s.lookup task_id with
  | none => (.error 404 "Task not found", s)
  | some t => (.ok t, s)

/-- Handler for POST /tasks (create_task in src/app/main.py):
409 "Task already exists" when the body id is already a key, otherwise the
task is stored under its own id and echoed back with 200. -/
def create_task (s : Store) (task : Task) : Response × Store :=
  if s.contains task.id then (.error 409 "Task already exists", s)
  else (.ok task, s.set task.id task)

/-- Handler for PUT /tasks/(task_id) (update_task in src/app/main.py):
404 "Task not found" when the path id is absent, otherwise the full body
is stored under the path key (its own id field is not checked against the
path parameter) and echoed back with 200. -/
def update_task (s : Store) (task_id : Int) (task : Task) : Response × Store :=
  if s.contains task_id then (.ok task, s.set task_id task)
  else (.error 404 "Task not found", s)

/-- Handler for DELETE /tasks/(task_id) (delete_task in src/app/main.py):
404 "Task not found" when the path id is absent, otherwise the entry is
removed and 200 with a message object is returned. -/
def delete_task (s : Store) (task_id : Int) : Response × Store :=
  if s.contains task_id then (.msg "Task deleted", s.erase task_id)
  else (.error 404 "Task not found", s)

/-- A client request against the task endpoints, carrying its already
schema-valid body where one is required. -/
inductive Op where
  | post (b : TaskBody)
  | put (p : Int) (b : TaskBody)
  | delete (p : Int)
  | get (p : Int)
deriving DecidableEq, Repr

/-- The store state left behind after one request is handled. -/
def applyOp (s : Store) : Op → Store
  | .post b => (create_task s b.parse).2
  | .put p b => (update_task s p b.parse).2
  | .delete p => (delete_task s p).2
  | .get p => (get_task s p).2

/-- Store states reachable from the initial empty dict by any sequence of
requests against the task endpoints. -/
inductive Reachable : Store → Prop where
  | empty : Reachable []
  | step (s : Store) (o : Op) : Reachable s → Reachable (applyOp s o)

/-- Store states reachable from the empty dict when every PUT request has
a body whose id field equals the path parameter (the other requests are
unrestricted). -/
inductive ReachableMatched : Store → Prop where
  | empty : ReachableMatched []
  | post (s : Store) (b : TaskBody) :
      ReachableMatched s → ReachableMatched (applyOp s (.post b))
  | put (s : Store) (p : Int) (b : TaskBody) (hid : b.id = p) :
      ReachableMatched s → ReachableMatched (applyOp s (.put p b))
  | del (s : Store) (p : Int) :
      ReachableMatched s → ReachableMatched (applyOp s (.delete p))
  | get (s : Store) (p : Int) :
      ReachableMatched s → ReachableMatched (applyOp s (.get p))

theorem Store.lookup_set (s : Store) (k : Int) (v : Task) (k0 : Int) :
    (s.set k v).lookup k0 = if k = k0 then some v else s.lookup k0 := by
  induction s with
  | nil => simp [Store.set, Store.lookup]
  | cons hd tl ih =>
      obtain ⟨k1, v1⟩ := hd
      by_cases h1 : k1 = k
      · subst h1
        simp only [Store.set, if_pos rfl, Store.lookup]
        split_ifs <;> rfl
      · simp only [Store.set, if_neg h1, Store.lookup, ih]
        split_ifs <;> simp_all

theorem Store.lookup_erase (s : Store) (k k0 : Int) :
    (s.erase k).lookup k0 = if k = k0 then none else s.lookup k0 := by
  induction s with
  | nil => simp [Store.erase, Store.lookup]
  | cons hd tl ih =>
      obtain ⟨k1, v1⟩ := hd
      by_cases h1 : k1 = k
      · subst h1
        simp only [Store.erase, if_pos rfl, ih, Store.lookup]
        split_ifs <;> simp_all
      · simp only [Store.erase, if_neg h1, Store.lookup, ih]
        split_ifs <;> simp_all

theorem Store.mem_keys_set (s : Store) (k : Int) (v : Task) (a : Int)
    (ha : a ∈ (s.set k v).keys) : a = k ∨ a ∈ s.keys := by
  induction s with
  | nil =>
      simp [Store.set, Store.keys] at ha
      exact Or.inl ha
  | cons hd tl ih =>
      obtain ⟨k1, v1⟩ := hd
      simp only [Store.set] at ha
      split_ifs at ha with h1
      · subst h1
        simp only [Store.keys, List.map_cons, List.mem_cons] at ha ⊢
        rcases ha with h | h
        · exact Or.inr (Or.inl h)
        · exact Or.inr (Or.inr h)
      · simp only [Store.keys, List.map_cons, List.mem_cons] at ha ⊢
        rcases ha with h | h
        · exact Or.inr (Or.inl h)
        · rcases ih h with h2 | h2
          · exact Or.inl h2
          · exact Or.inr (Or.inr h2)

theorem Store.nodup_keys_set (s : Store) (k : Int) (v : Task)
    (h : s.keys.Nodup) : (s.set k v).keys.Nodup := by
  induction s with
  | nil => simp [Store.set, Store.keys]
  | cons hd tl ih =>
      obtain ⟨k1, v1⟩ := hd
      simp only [Store.keys, List.map_cons, List.nodup_cons] at h
      simp only [Store.set]
      split_ifs with h1
      · subst h1
        simp only [Store.keys, List.map_cons, List.nodup_cons]
        exact h
      · simp only [Store.keys, List.map_cons, List.nodup_cons]
        refine ⟨?_, ih h.2⟩
        intro hmem
        rcases Store.mem_keys_set tl k v k1 hmem with h2 | h2
        · exact h1 h2
        · exact h.1 h2

theorem Store.keys_erase_sublist (s : Store) (k : Int) :
    (s.erase k).keys.Sublist s.keys := by
  induction s with
  | nil => simp [Store.erase, Store.keys]
  | cons hd tl ih =>
      obtain ⟨k1, v1⟩ := hd
      by_cases h1 : k1 = k
      · subst h1
        simp only [Store.erase, if_pos rfl, Store.keys, List.map_cons]
        exact ih.cons k1
      · simp only [Store.erase, if_neg h1, Store.keys, List.map_cons]
        exact ih.cons₂ k1

theorem Store.nodup_keys_erase (s : Store) (k : Int)
    (h : s.keys.Nodup) : (s.erase k).keys.Nodup :=
  (Store.keys_erase_sublist s k).nodup h

theorem get_task_snd (s : Store) (p : Int) : (get_task s p).2 = s := by
  unfold get_task
  cases s.lookup p <;> rfl

theorem applyOp_nodup_keys (s : Store) (o : Op)
    (h : s.keys.Nodup) : (applyOp s o).keys.Nodup := by
  cases o with
  | post b =>
      by_cases hc : s.contains b.parse.id = true
      · simpa [applyOp, create_task, hc] using h
      · simpa [applyOp, create_task, hc] using
          Store.nodup_keys_set s b.parse.id b.parse h
  | put p b =>
      by_cases hc : s.contains p = true
      · simpa [applyOp, update_task, hc] using
          Store.nodup_keys_set s p b.parse h
      · simpa [applyOp, update_task, hc] using h
  | delete p =>
      by_cases hc : s.contains p = true
      · simpa [applyOp, delete_task, hc] using
          Store.nodup_keys_erase s p h
      · simpa [applyOp, delete_task, hc] using h
  | get p =>
      simpa [applyOp, get_task_snd] using h

/-- Invariant: every Task stored in the store has its id field equal to
the store key it is stored under. -/
def KeyInv (s : Store) : Prop :=
  ∀ k t, s.lookup k = some t → t.id = k

theorem KeyInv_set (s : Store) (k : Int) (v : Task) (h : KeyInv s)
    (hv : v.id = k) : KeyInv (s.set k v) := by
  intro k0 t0 hl
  rw [Store.lookup_set] at hl
  by_cases hk : k = k0
  · rw [if_pos hk] at hl
    injection hl with hv0
    rw [← hv0, hv, hk]
  · rw [if_neg hk] at hl
    exact h k0 t0 hl

theorem KeyInv_erase (s : Store) (k : Int) (h : KeyInv s) :
    KeyInv (s.erase k) := by
  intro k0 t0 hl
  rw [Store.lookup_erase] at hl
  by_cases hk : k = k0
  · rw [if_pos hk] at hl
    simp at hl
  · rw [if_neg hk] at hl
    exact h k0 t0 hl

theorem keyInv_reachableMatched {s : Store} (h : ReachableMatched s) :
    KeyInv s := by
  induction h with
  | empty =>
      intro k t hl
      simp [Store.lookup] at hl
  | post s b hr ih =>
      by_cases hc : s.contains b.parse.id = true
      · simpa [applyOp, create_task, hc] using ih
      · have he : applyOp s (.post b) = s.set b.parse.id b.parse := by
          simp [applyOp, create_task, hc]
        rw [he]
        exact KeyInv_set s b.parse.id b.parse ih rfl
  | put s p b hid hr ih =>
      by_cases hc : s.contains p = true
      · have he : applyOp s (.put p b) = s.set p b.parse := by
          simp [applyOp, update_task, hc]
        rw [he]
        exact KeyInv_set s p b.parse ih hid
      · simpa [applyOp, update_task, hc] using ih
  | del s p hr ih =>
      by_cases hc : s.contains p = true
      · have he : applyOp s (.delete p) = s.erase p := by
          simp [applyOp, delete_task, hc]
        rw [he]
        exact KeyInv_erase s p ih
      · simpa [applyOp, delete_task, hc] using ih
  | get s p hr ih =>
      simpa [applyOp, get_task_snd] using ih

/-- Claim C1 is refuted: the state obtained from the empty store by
POST of body (id 1, title "a") followed by PUT /tasks/1 with body
(id 2, title "b", completed true) is reachable, and in it the Task stored
under key 1 carries id field 2, so a reachable state violates the claimed
key/id-field invariant. -/
theorem C1_counterexample :
    Reachable [((1 : Int), ({ id := 2, title := "b", completed := true } : Task))] ∧
    Store.lookup [((1 : Int), ({ id := 2, title := "b", completed := true } : Task))] 1 =
      some { id := 2, title := "b", completed := true } ∧
    ({ id := 2, title := "b", completed := true } : Task).id ≠ 1 := by
  refine ⟨?_, by simp [Store.lookup], by decide⟩
  exact Reachable.step _ (Op.put 1 ⟨2, "b", some true⟩)
    (Reachable.step [] (Op.post ⟨1, "a", none⟩) Reachable.empty)

/-- Claim C1 (amended): in every store state reachable by POST, GET and
DELETE requests and by PUT requests whose body id equals the path
parameter, every stored Task's id field equals the store key it is stored
under. (The unamended claim, which also allows mismatched PUTs, is false:
update_task stores the body verbatim under the path key.) -/
theorem C1_amended (s : Store) (h : ReachableMatched s) (k : Int) (t : Task)
    (hl : s.lookup k = some t) : t.id = k :=
  keyInv_reachableMatched h k t hl

theorem C1_amended_witness :
    ({ id := 1, title := "a", completed := false } : Task).id = 1 :=
  C1_amended [((1 : Int), { id := 1, title := "a", completed := false })]
    (ReachableMatched.post [] ⟨1, "a", none⟩ ReachableMatched.empty)
    1 { id := 1, title := "a", completed := false } (by simp [Store.lookup])

/-- Claim C2: for every schema-valid body b whose id is absent from the
store, POST /tasks with body b succeeds with the created Task echoed
back, an immediately following GET /tasks/(b.id) returns that same Task,
and an omitted completed field has been defaulted to false. -/
theorem C2_post_then_get (s : Store) (b : TaskBody)
    (h : s.lookup b.id = none) :
    (create_task s b.parse).1 = Response.ok b.parse ∧
    (get_task (create_task s b.parse).2 b.id).1 = Response.ok b.parse ∧
    (b.completed = none → b.parse.completed = false) := by
  have hc : s.contains b.id = false := by
    simp [Store.contains, h]
  refine ⟨?_, ?_, ?_⟩
  · simp [create_task, hc, TaskBody.parse]
  · simp [create_task, hc, get_task, Store.lookup_set, TaskBody.parse]
  · intro hb
    simp [TaskBody.parse, hb]

theorem C2_post_then_get_witness :
    (create_task [] (TaskBody.parse ⟨1, "a", none⟩)).1 =
      Response.ok (TaskBody.parse ⟨1, "a", none⟩) ∧
    (get_task (create_task [] (TaskBody.parse ⟨1, "a", none⟩)).2 1).1 =
      Response.ok (TaskBody.parse ⟨1, "a", none⟩) ∧
    ((⟨1, "a", none⟩ : TaskBody).completed = none →
      (TaskBody.parse ⟨1, "a", none⟩).completed = false) :=
  C2_post_then_get [] ⟨1, "a", none⟩ rfl

/-- Claim C3: when the path id p is present and the body has an id field
different from p, PUT /tasks/(p) succeeds and stores the full body record,
mismatched id field included, under the store key p. -/
theorem C3_put_mismatched_body (s : Store) (p : Int) (b : TaskBody)
    (hp : s.contains p = true) (hne : b.id ≠ p) :
    (update_task s p b.parse).1 = Response.ok b.parse ∧
    (update_task s p b.parse).2.lookup p = some b.parse ∧
    (b.parse).id ≠ p := by
  refine ⟨?_, ?_, hne⟩
  · simp [update_task, hp]
  · simp [update_task, hp, Store.lookup_set]

theorem C3_put_mismatched_body_witness :
    (update_task [((1 : Int), { id := 1, title := "a", completed := false })]
      1 (TaskBody.parse ⟨2, "b", some true⟩)).1 =
      Response.ok (TaskBody.parse ⟨2, "b", some true⟩) ∧
    (update_task [((1 : Int), { id := 1, title := "a", completed := false })]
      1 (TaskBody.parse ⟨2, "b", some true⟩)).2.lookup 1 =
      some (TaskBody.parse ⟨2, "b", some true⟩) ∧
    (TaskBody.parse ⟨2, "b", some true⟩).id ≠ 1 :=
  C3_put_mismatched_body [((1 : Int), { id := 1, title := "a", completed := false })]
    1 ⟨2, "b", some true⟩ rfl (by decide)

/-- Claim C4: POST /tasks whose body id is already a key of the store
returns 409 with detail "Task already exists" and leaves the store
exactly unchanged. -/
theorem C4_post_conflict (s : Store) (b : TaskBody)
    (h : s.contains b.id = true) :
    create_task s b.parse = (Response.error 409 "Task already exists", s) := by
  have hc : s.contains b.parse.id = true := h
  simp [create_task, hc]

theorem C4_post_conflict_witness :
    create_task [((1 : Int), { id := 1, title := "a", completed := false })]
      (TaskBody.parse ⟨1, "b", none⟩) =
      (Response.error 409 "Task already exists",
        [((1 : Int), { id := 1, title := "a", completed := false })]) :=
  C4_post_conflict [((1 : Int), { id := 1, title := "a", completed := false })]
    ⟨1, "b", none⟩ rfl

/-- Claim C5: PUT /tasks/(p) when p is absent from the store returns 404
with detail "Task not found" and leaves the store exactly unchanged; in
particular no record appears at p or at the body id (replace is not
upsert). -/
theorem C5_put_not_found (s : Store) (p : Int) (b : TaskBody)
    (h : s.lookup p = none) :
    update_task s p b.parse = (Response.error 404 "Task not found", s) ∧
    (update_task s p b.parse).2.lookup p = none ∧
    (update_task s p b.parse).2.lookup b.id = s.lookup b.id := by
  have hc : s.contains p = false := by simp [Store.contains, h]
  refine ⟨?_, ?_, ?_⟩ <;> simp [update_task, hc, h]

theorem C5_put_not_found_witness :
    update_task [] 7 (TaskBody.parse ⟨3, "c", none⟩) =
      (Response.error 404 "Task not found", []) ∧
    (update_task [] 7 (TaskBody.parse ⟨3, "c", none⟩)).2.lookup 7 = none ∧
    (update_task [] 7 (TaskBody.parse ⟨3, "c", none⟩)).2.lookup 3 =
      Store.lookup [] 3 :=
  C5_put_not_found [] 7 ⟨3, "c", none⟩ rfl

/-- Claim C6: on a store containing key k, DELETE /tasks/(k) returns 200
with message "Task deleted", an immediately following GET /tasks/(k)
returns 404 "Task not found", and an immediately repeated
DELETE /tasks/(k) returns 404 "Task not found" while leaving the store
the same as after the first delete. -/
theorem C6_delete_then_get (s : Store) (k : Int) (t : Task)
    (h : s.lookup k = some t) :
    (delete_task s k).1 = Response.msg "Task deleted" ∧
    (get_task (delete_task s k).2 k).1 = Response.error 404 "Task not found" ∧
    delete_task (delete_task s k).2 k =
      (Response.error 404 "Task not found", (delete_task s k).2) := by
  have hc : s.contains k = true := by simp [Store.contains, h]
  have hsnd : (delete_task s k).2 = s.erase k := by simp [delete_task, hc]
  have hl : (s.erase k).lookup k = none := by simp [Store.lookup_erase]
  have hc2 : (s.erase k).contains k = false := by simp [Store.contains, hl]
  refine ⟨?_, ?_, ?_⟩
  · simp [delete_task, hc]
  · rw [hsnd]
    simp [get_task, hl]
  · rw [hsnd]
    simp [delete_task, hc2]

theorem C6_delete_then_get_witness :
    (delete_task [((1 : Int), { id := 1, title := "a", completed := false })] 1).1 =
      Response.msg "Task deleted" ∧
    (get_task (delete_task [((1 : Int), { id := 1, title := "a", completed := false })] 1).2 1).1 =
      Response.error 404 "Task not found" ∧
    delete_task (delete_task [((1 : Int), { id := 1, title := "a", completed := false })] 1).2 1 =
      (Response.error 404 "Task not found",
        (delete_task [((1 : Int), { id := 1, title := "a", completed := false })] 1).2) :=
  C6_delete_then_get [((1 : Int), { id := 1, title := "a", completed := false })]
    1 { id := 1, title := "a", completed := false } rfl

/-- Claim C7: GET /tasks/(k) returns 404 with detail "Task not found"
when k is absent from the store, and 200 with the stored Task when k is
present; in neither case does it change the store. -/
theorem C7_get_spec (s : Store) (k : Int) :
    (s.lookup k = none →
      get_task s k = (Response.error 404 "Task not found", s)) ∧
    ∀ t, s.lookup k = some t → get_task s k = (Response.ok t, s) := by
  constructor
  · intro h
    simp [get_task, h]
  · intro t h
    simp [get_task, h]

theorem C7_get_spec_witness :
    get_task [] 0 = (Response.error 404 "Task not found", []) :=
  (C7_get_spec [] 0).1 rfl

/-- Claim C8: every store state reachable by any sequence of requests has
pairwise distinct keys — the store is a genuine mapping with at most one
Task per id. -/
theorem C8_keys_nodup (s : Store) (h : Reachable s) : s.keys.Nodup := by
  induction h with
  | empty => simp [Store.keys]
  | step s o hr ih => exact applyOp_nodup_keys s o ih

theorem C8_keys_nodup_witness :
    (Store.keys [((1 : Int), ({ id := 1, title := "a", completed := false } : Task))]).Nodup :=
  C8_keys_nodup _ (Reachable.step [] (Op.post ⟨1, "a", none⟩) Reachable.empty)

/-- Claim C9: each successful write touches exactly one entry — a
successful POST adds exactly the posted id, a successful PUT replaces
exactly the entry at the path id, a successful DELETE removes exactly the
entry at the path id, and every other key maps to the same Task before
and after. -/
theorem C9_write_frame (s : Store) (p : Int) (b : TaskBody) :
    (s.lookup b.id = none →
      (create_task s b.parse).2.lookup b.id = some b.parse ∧
      ∀ k0, k0 ≠ b.id → (create_task s b.parse).2.lookup k0 = s.lookup k0) ∧
    (s.contains p = true →
      (update_task s p b.parse).2.lookup p = some b.parse ∧
      ∀ k0, k0 ≠ p → (update_task s p b.parse).2.lookup k0 = s.lookup k0) ∧
    (s.contains p = true →
      (delete_task s p).2.lookup p = none ∧
      ∀ k0, k0 ≠ p → (delete_task s p).2.lookup k0 = s.lookup k0) := by
  refine ⟨?_, ?_, ?_⟩
  · intro h
    have hc : s.contains b.id = false := by
      simp [Store.contains, h]
    constructor
    · simp [create_task, hc, Store.lookup_set, TaskBody.parse]
    · intro k0 hk0
      have hne : b.id ≠ k0 := fun hh => hk0 hh.symm
      simp [create_task, hc, Store.lookup_set, hne, TaskBody.parse]
  · intro hc
    constructor
    · simp [update_task, hc, Store.lookup_set]
    · intro k0 hk0
      have hne : p ≠ k0 := fun hh => hk0 hh.symm
      simp [update_task, hc, Store.lookup_set, hne]
  · intro hc
    constructor
    · simp [delete_task, hc, Store.lookup_erase]
    · intro k0 hk0
      have hne : p ≠ k0 := fun hh => hk0 hh.symm
      simp [delete_task, hc, Store.lookup_erase, hne]

theorem C9_write_frame_witness :
    (create_task [((1 : Int), { id := 1, title := "a", completed := false })]
      (TaskBody.parse ⟨2, "b", none⟩)).2.lookup 2 =
      some (TaskBody.parse ⟨2, "b", none⟩) ∧
    (update_task [((1 : Int), { id := 1, title := "a", completed := false })]
      1 (TaskBody.parse ⟨2, "b", none⟩)).2.lookup 1 =
      some (TaskBody.parse ⟨2, "b", none⟩) ∧
    (delete_task [((1 : Int), { id := 1, title := "a", completed := false })]
      1).2.lookup 1 = none :=
  ⟨((C9_write_frame [((1 : Int), { id := 1, title := "a", completed := false })]
      1 ⟨2, "b", none⟩).1 rfl).1,
    ((C9_write_frame [((1 : Int), { id := 1, title := "a", completed := false })]
      1 ⟨2, "b", none⟩).2.1 rfl).1,
    ((C9_write_frame [((1 : Int), { id := 1, title := "a", completed := false })]
      1 ⟨2, "b", none⟩).2.2 rfl).1⟩

/-- Claim C10: every request that produces an error response leaves the
store exactly unchanged — GET, PUT and DELETE on an absent id (404) and
POST on a present id (409) all raise before any mutation. -/
theorem C10_errors_leave_store (s : Store) (p : Int) (b : TaskBody) :
    (s.lookup p = none → (get_task s p).2 = s) ∧
    (s.contains b.id = true → (create_task s b.parse).2 = s) ∧
    (s.lookup p = none → (update_task s p b.parse).2 = s) ∧
    (s.lookup p = none → (delete_task s p).2 = s) := by
  refine ⟨?_, ?_, ?_, ?_⟩
  · intro h
    simp [get_task, h]
  · intro h
    have hc : s.contains b.parse.id = true := h
    simp [create_task, hc]
  · intro h
    have hc : s.contains p = false := by simp [Store.contains, h]
    simp [update_task, hc]
  · intro h
    have hc : s.contains p = false := by simp [Store.contains, h]
    simp [delete_task, hc]

theorem C10_errors_leave_store_witness :
    (get_task [((1 : Int), { id := 1, title := "a", completed := false })] 2).2 =
      [((1 : Int), { id := 1, title := "a", completed := false })] ∧
    (create_task [((1 : Int), { id := 1, title := "a", completed := false })]
      (TaskBody.parse ⟨1, "b", none⟩)).2 =
      [((1 : Int), { id := 1, title := "a", completed := false })] ∧
    (update_task [((1 : Int), { id := 1, title := "a", completed := false })]
      2 (TaskBody.parse ⟨1, "b", none⟩)).2 =
      [((1 : Int), { id := 1, title := "a", completed := false })] ∧
    (delete_task [((1 : Int), { id := 1, title := "a", completed := false })] 2).2 =
      [((1 : Int), { id := 1, title := "a", completed := false })] :=
  ⟨(C10_errors_leave_store [((1 : Int), { id := 1, title := "a", completed := false })]
      2 ⟨1, "b", none⟩).1 rfl,
    (C10_errors_leave_store [((1 : Int), { id := 1, title := "a", completed := false })]
      2 ⟨1, "b", none⟩).2.1 rfl,
    (C10_errors_leave_store [((1 : Int), { id := 1, title := "a", completed := false })]
      2 ⟨1, "b", none⟩).2.2.1 rfl,
    (C10_errors_leave_store [((1 : Int), { id := 1, title := "a", completed := false })]
      2 ⟨1, "b", none⟩).2.2.2 rfl⟩

end TaskApi
